import Mathlib

/-!
Shallow embedding of the `go-lambda-pulumi` repository's transaction
workflow (`internal/core/services/patient.go`, `PatientService.PayTransaction`)
together with the domain model (`internal/core/domain`) and the collaborator
contracts of `internal/adapters/repository/patient.go`.

Effectful collaborators (patient lookup, transaction store, `uuid.New`,
`time.Now`, `crypto/rand`) are passed in explicitly through an `Env` record;
the result additionally carries the ordered log of transactions handed to the
store, so that "the store is called exactly once / never" is expressible.
-/

/-- Errors in Go are surfaced by message string (`errors.New`). -/
abbrev GoError := String

/-- Model of `uuid.UUID`; only identity and string rendering matter here. -/
abbrev UUID := Nat

/-- Model of `uuid.UUID.String()`. -/
def uuidString (u : UUID) : String := toString u

/-- Model of `domain.Patient` (internal/core/domain): identity and contact
record, read-only for this workflow. -/
structure Patient where
  id      : UUID
  name    : String
  email   : String
  phone   : String
  address : String
  city    : String
  state   : String
  zip     : String
deriving DecidableEq

/-- Model of `domain.TransactionStatus` (a Go string type; the zero value is
the empty string). -/
abbrev TransactionStatus := String

/-- Constant `domain.TransactionStatusSuccess`. -/
def TransactionStatusSuccess : TransactionStatus := "success"

/-- Constant `domain.TransactionStatusFailed`. -/
def TransactionStatusFailed : TransactionStatus := "failed"

/-- Model of `domain.Transaction`. `apiResponse` models the
`json.RawMessage` bytes as a string; `createdAt` models the `time.Time`
field as nanoseconds (zero value `0`, never set by the service). -/
structure Transaction where
  id          : UUID
  patientID   : UUID
  status      : TransactionStatus
  apiResponse : String
  recordType  : String
  dateOfBirth : String
  createdAt   : Int
deriving DecidableEq

/-- Model of `domain.PayTransactionRequest`. -/
structure PayTransactionRequest where
  patientID   : UUID
  dateOfBirth : String
  recordType  : String
deriving DecidableEq

/-- A parsed calendar date, as produced by Go `time.Parse("02-01-2006", s)`. -/
structure Date where
  day   : Nat
  month : Nat
  year  : Nat
deriving DecidableEq

/-- Gregorian leap-year rule, as in Go `time.isLeap`. -/
def isLeapYear (y : Nat) : Bool :=
  (y % 4 == 0 && y % 100 != 0) || y % 400 == 0

/-- Number of days of month `m` of year `y`, as in Go `time.daysIn`. -/
def daysInMonth (y m : Nat) : Nat :=
  if m = 2 then (if isLeapYear y then 29 else 28)
  else if m = 4 ∨ m = 6 ∨ m = 9 ∨ m = 11 then 30
  else 31

/-- ASCII decimal digit test (Go's `getnum` accepts only bytes `0`..`9`). -/
def isAsciiDigit (c : Char) : Bool := '0' ≤ c && c ≤ '9'

/-- Numeric value of an ASCII digit. -/
def digitVal (c : Char) : Nat := c.toNat - '0'.toNat

/-- Model of Go `time.Parse("02-01-2006", s)` restricted to its success /
failure behaviour and the parsed calendar date: the layout demands exactly
two day digits, a dash, two month digits, a dash and four year digits, with
no trailing text, and the date itself must be a real calendar date
(month 1..12, day 1..days-in-month). -/
def parseDDMMYYYY (s : String) : Option Date :=
  match s.data with
  | [d1, d2, s1, m1, m2, s2, y1, y2, y3, y4] =>
    if isAsciiDigit d1 && isAsciiDigit d2 && s1 == '-' &&
       isAsciiDigit m1 && isAsciiDigit m2 && s2 == '-' &&
       isAsciiDigit y1 && isAsciiDigit y2 && isAsciiDigit y3 && isAsciiDigit y4 then
      let day := 10 * digitVal d1 + digitVal d2
      let month := 10 * digitVal m1 + digitVal m2
      let year := 1000 * digitVal y1 + 100 * digitVal y2 + 10 * digitVal y3 + digitVal y4
      if 1 ≤ month && month ≤ 12 && 1 ≤ day && day ≤ daysInMonth year month then
        some ⟨day, month, year⟩
      else
        none
    else
      none
  | _ => none

/-- Days from the Unix epoch (1970-01-01) to the civil date `y-m-d` in the
proleptic Gregorian calendar, as Go's `time` package computes absolute time
for parsed dates. Standard era decomposition; valid for `1 ≤ y`. -/
def daysFromCivil (y m d : Nat) : Int :=
  let yAdj : Nat := if 2 < m then y else y - 1
  let era : Nat := yAdj / 400
  let yoe : Nat := yAdj % 400
  let mp : Nat := if 2 < m then m - 3 else m + 9
  let doy : Nat := (153 * mp + 2) / 5 + (d - 1)
  let doe : Nat := yoe * 365 + yoe / 4 - yoe / 100 + doy
  ((era * 146097 + doe : Nat) : Int) - 719468

/-- Nanoseconds per day. -/
def nsPerDay : Int := 86400000000000

/-- Unix nanoseconds of midnight UTC of a parsed date (`time.Parse` yields
00:00:00 UTC of the given day). -/
def dateToNs (dob : Date) : Int := daysFromCivil dob.year dob.month dob.day * nsPerDay

/-- Source line 64 of patient.go:
`patientAge := time.Since(patientDateOfBirth).Hours() / 24 / 365`,
as a function of the elapsed nanoseconds. `Duration.Hours()` divides the
nanosecond count by 3.6e12. -/
def patientAge (elapsedNs : Int) : ℚ :=
  ((elapsedNs : ℚ) / 3600000000000) / 24 / 365

/-- Response payload of the under-age branch (line 67), byte for byte. -/
def underAgeJSON : String := "\x7b\"error\": \"Patient must be more than 18 years old\"\x7d"

/-- Response payload of the record-type branch (line 78), byte for byte. -/
def recordTypeJSON : String := "\x7b\"error\": \"Record type must be NEW\"\x7d"

/-- Output of `json.Marshal(map[string]string{"error": "Transaction failed"})`
(lines 97-101): Go's encoder emits no spaces. -/
def txFailedJSON : String := "\x7b\"error\":\"Transaction failed\"\x7d"

/-- Output of `json.Marshal(map[string]string{"message": "Transaction success"})`
(lines 122-125). -/
def txSuccessJSON : String := "\x7b\"message\":\"Transaction success\"\x7d"

/-- Error message of the date-parse failure branch (line 61). -/
def dobFormatError : GoError := "date of birth format must be DD-MM-YYYY"

/-- Effect environment of one `PayTransaction` invocation: the two repository
collaborators (each returns either a value or an error, exactly as
`DB.GetPatient` / `DB.CreateTransaction` in
internal/adapters/repository/patient.go do), the UUID drawn by `uuid.New()`,
the current wall-clock time used by `time.Since`, and the outcome of
`rand.Int(rand.Reader, big.NewInt(2))`. -/
structure Env where
  getPatient        : String → Except GoError Patient
  createTransaction : Transaction → Except GoError Transaction
  newUUID           : UUID
  nowNs             : Int
  randInt2          : Except GoError Nat

/-- Result of one `PayTransaction` invocation. `transaction` and `error`
mirror Go's two return values `(*domain.Transaction, error)`; `createCalls`
is the ordered log of transactions handed to the store. -/
structure PayResult where
  transaction : Option Transaction
  error       : Option GoError
  createCalls : List Transaction
deriving DecidableEq

/-- The persist-and-return pattern the service repeats on every branch that
reaches the store (lines 68-72, 79-84, 115-119, 132-136):
`rs, err := CreateTransaction(t); if err != nil { return nil, err }; return rs, nil`. -/
def persistTransaction (env : Env) (t : Transaction) : PayResult :=
  match env.createTransaction t with
  | .error e => ⟨none, some e, [t]⟩
  | .ok rs => ⟨some rs, none, [t]⟩

/-- The Transaction built at lines 50-55 (fresh UUID, the request's fields
copied verbatim, zero-valued timestamp) after the branch at hand assigned
`status` and `apiResponse` to it. Go's zero-valued `Status`/`APIResponse`
fields are always overwritten before the store is reached. -/
def buildTransaction (env : Env) (data : PayTransactionRequest)
    (st : TransactionStatus) (payload : String) : Transaction :=
  { id := env.newUUID
    patientID := data.patientID
    status := st
    apiResponse := payload
    recordType := data.recordType
    dateOfBirth := data.dateOfBirth
    createdAt := 0 }

/-- `PatientService.PayTransaction` (patient.go lines 31-138), translated
branch for branch: patient lookup, date-of-birth parse, age gate,
record-type gate, simulated external call, persist. `json.Marshal` of a
`map[string]string` cannot fail in Go and is modelled by the two constant
payload strings. -/
def PayTransaction (env : Env) (data : PayTransactionRequest) : PayResult :=
  match env.getPatient (uuidString data.patientID) with
  | .error e => ⟨none, some e, []⟩
  | .ok _patient =>
    match parseDDMMYYYY data.dateOfBirth with
    | none => ⟨none, some dobFormatError, []⟩
    | some dob =>
      if patientAge (env.nowNs - dateToNs dob) < 18 then
        persistTransaction env
          (buildTransaction env data TransactionStatusFailed underAgeJSON)
      else if data.recordType ≠ "NEW" then
        persistTransaction env
          (buildTransaction env data TransactionStatusFailed recordTypeJSON)
      else
        match env.randInt2 with
        | .error e => ⟨none, some e, []⟩
        | .ok isSuccess =>
          if isSuccess = 0 then
            persistTransaction env
              (buildTransaction env data TransactionStatusFailed txFailedJSON)
          else
            persistTransaction env
              (buildTransaction env data TransactionStatusSuccess txSuccessJSON)

/-- Substring test on character lists, used to state "payload containing X". -/
def listStartsWith : List Char → List Char → Bool
  | _, [] => true
  | [], _ :: _ => false
  | a :: as, b :: bs => a == b && listStartsWith as bs

/-- Contiguous-substring test on character lists. -/
def listHasSub : List Char → List Char → Bool
  | l, pat =>
    listStartsWith l pat ||
      match l with
      | [] => false
      | _ :: t => listHasSub t pat

/-- Whether `pat` occurs as a contiguous substring of `s`. -/
def strHasSub (s pat : String) : Bool := listHasSub s.data pat.data

-- sanity checks of the `time.Parse` model against the repository's own
-- `ValidateDDMMYYYY` test expectations
example : parseDDMMYYYY "15-03-1990" = some ⟨15, 3, 1990⟩ := by decide
example : parseDDMMYYYY "1990-03-15" = none := by decide
example : parseDDMMYYYY "29-02-2021" = none := by decide
example : parseDDMMYYYY "29-02-2020" = some ⟨29, 2, 2020⟩ := by decide
example : parseDDMMYYYY "31-04-2022" = none := by decide
example : parseDDMMYYYY "5-03-1990" = none := by decide
example : parseDDMMYYYY "15-03-1990 " = none := by decide
example : daysFromCivil 1970 1 1 = 0 := by decide

/-- The age formula of line 64 is division by one constant. -/
theorem patientAge_eq_divInt (e : Int) : patientAge e = Rat.divInt e 31536000000000000 := by
  unfold patientAge
  rw [Rat.divInt_eq_div]
  push_cast
  ring

/-- The strict comparison `patientAge e < 18` of line 65, reduced to the
integer threshold of 18 × 365 days of nanoseconds. -/
theorem patientAge_lt18_iff (e : Int) : patientAge e < 18 ↔ e < 567648000000000000 := by
  unfold patientAge
  rw [div_div, div_div, div_lt_iff₀ (by norm_num)]
  norm_num
  exact_mod_cast Iff.rfl

/-- Crossing 18 calendar years never loses days against the 365-day year:
the civil-day distance from `y-m-d` to `(y+18)-m-d` is at least 18 × 365. -/
theorem daysFromCivil_18y_ge (y m d : Nat) (hy : 1 ≤ y) :
    daysFromCivil y m d + 6570 ≤ daysFromCivil (y + 18) m d := by
  unfold daysFromCivil
  by_cases hm : 2 < m <;> simp only [hm, if_true, if_false, reduceIte] <;> omega

-- helper lemmas describing each branch of `PayTransaction`, shared by the
-- claim-level theorems below

/-- Lookup-failure branch (lines 32-35). -/
theorem payTx_patient_error (env : Env) (data : PayTransactionRequest) (e : GoError)
    (h : env.getPatient (uuidString data.patientID) = .error e) :
    PayTransaction env data = ⟨none, some e, []⟩ := by
  simp only [PayTransaction, h]

/-- Parse-failure branch (lines 59-62). -/
theorem payTx_parse_error (env : Env) (data : PayTransactionRequest) (p : Patient)
    (hp : env.getPatient (uuidString data.patientID) = .ok p)
    (hd : parseDDMMYYYY data.dateOfBirth = none) :
    PayTransaction env data = ⟨none, some dobFormatError, []⟩ := by
  simp only [PayTransaction, hp, hd]

/-- Under-age branch (lines 65-73). -/
theorem payTx_underage (env : Env) (data : PayTransactionRequest) (p : Patient)
    (dob : Date) (rs : Transaction)
    (hp : env.getPatient (uuidString data.patientID) = .ok p)
    (hd : parseDDMMYYYY data.dateOfBirth = some dob)
    (hage : patientAge (env.nowNs - dateToNs dob) < 18)
    (hcr : env.createTransaction
        (buildTransaction env data TransactionStatusFailed underAgeJSON) = .ok rs) :
    PayTransaction env data =
      ⟨some rs, none, [buildTransaction env data TransactionStatusFailed underAgeJSON]⟩ := by
  simp only [PayTransaction, persistTransaction, hp, hd, hage, if_true, hcr]

/-- Record-type branch (lines 76-85). -/
theorem payTx_recordType (env : Env) (data : PayTransactionRequest) (p : Patient)
    (dob : Date) (rs : Transaction)
    (hp : env.getPatient (uuidString data.patientID) = .ok p)
    (hd : parseDDMMYYYY data.dateOfBirth = some dob)
    (hage : ¬ patientAge (env.nowNs - dateToNs dob) < 18)
    (hrt : data.recordType ≠ "NEW")
    (hcr : env.createTransaction
        (buildTransaction env data TransactionStatusFailed recordTypeJSON) = .ok rs) :
    PayTransaction env data =
      ⟨some rs, none, [buildTransaction env data TransactionStatusFailed recordTypeJSON]⟩ := by
  simp only [PayTransaction, persistTransaction, hp, hd, hcr]
  rw [if_neg hage, if_pos hrt]

/-- The transaction built by the simulated-external-call branch for coin
outcome `b` (lines 96-137). -/
def coinTransaction (env : Env) (data : PayTransactionRequest) (b : Nat) : Transaction :=
  if b = 0 then buildTransaction env data TransactionStatusFailed txFailedJSON
  else buildTransaction env data TransactionStatusSuccess txSuccessJSON

/-- Simulated-external-call branch (lines 87-137). -/
theorem payTx_coin (env : Env) (data : PayTransactionRequest) (p : Patient)
    (dob : Date) (rs : Transaction) (b : Nat)
    (hp : env.getPatient (uuidString data.patientID) = .ok p)
    (hd : parseDDMMYYYY data.dateOfBirth = some dob)
    (hage : ¬ patientAge (env.nowNs - dateToNs dob) < 18)
    (hrt : data.recordType = "NEW")
    (hb : env.randInt2 = .ok b)
    (hcr : env.createTransaction (coinTransaction env data b) = .ok rs) :
    PayTransaction env data = ⟨some rs, none, [coinTransaction env data b]⟩ := by
  simp only [PayTransaction, persistTransaction, hp, hd, hb]
  rw [if_neg hage, if_neg (by simp [hrt])]
  unfold coinTransaction at hcr ⊢
  by_cases h0 : b = 0
  · rw [if_pos h0] at hcr
    simp [persistTransaction, hcr, h0]
  · rw [if_neg h0] at hcr
    simp [persistTransaction, hcr, h0]

/-- Randomness-failure branch (lines 90-93). -/
theorem payTx_rand_error (env : Env) (data : PayTransactionRequest) (p : Patient)
    (dob : Date) (e : GoError)
    (hp : env.getPatient (uuidString data.patientID) = .ok p)
    (hd : parseDDMMYYYY data.dateOfBirth = some dob)
    (hage : ¬ patientAge (env.nowNs - dateToNs dob) < 18)
    (hrt : data.recordType = "NEW")
    (hb : env.randInt2 = .error e) :
    PayTransaction env data = ⟨none, some e, []⟩ := by
  simp only [PayTransaction, hp, hd, hb]
  rw [if_neg hage, if_neg (by simp [hrt])]

/-- Exhaustive branch characterization of `PayTransaction`: every run is a
lookup failure, a parse failure, a randomness failure, or a persist of one
of the four built transactions. -/
theorem payTx_branches (env : Env) (data : PayTransactionRequest) :
    (∃ e, env.getPatient (uuidString data.patientID) = .error e ∧
      PayTransaction env data = ⟨none, some e, []⟩) ∨
    (parseDDMMYYYY data.dateOfBirth = none ∧
      PayTransaction env data = ⟨none, some dobFormatError, []⟩) ∨
    (∃ dob, parseDDMMYYYY data.dateOfBirth = some dob ∧
      patientAge (env.nowNs - dateToNs dob) < 18 ∧
      PayTransaction env data =
        persistTransaction env (buildTransaction env data TransactionStatusFailed underAgeJSON)) ∨
    (data.recordType ≠ "NEW" ∧
      PayTransaction env data =
        persistTransaction env (buildTransaction env data TransactionStatusFailed recordTypeJSON)) ∨
    (∃ e, env.randInt2 = .error e ∧ PayTransaction env data = ⟨none, some e, []⟩) ∨
    (PayTransaction env data =
      persistTransaction env (buildTransaction env data TransactionStatusFailed txFailedJSON)) ∨
    (PayTransaction env data =
      persistTransaction env (buildTransaction env data TransactionStatusSuccess txSuccessJSON)) := by
  unfold PayTransaction
  repeat' split
  · exact Or.inl ⟨_, by assumption, rfl⟩
  · exact Or.inr (Or.inl ⟨by assumption, rfl⟩)
  · exact Or.inr (Or.inr (Or.inl ⟨_, by assumption, by assumption, rfl⟩))
  · exact Or.inr (Or.inr (Or.inr (Or.inl ⟨by assumption, rfl⟩)))
  · exact Or.inr (Or.inr (Or.inr (Or.inr (Or.inl ⟨_, by assumption, rfl⟩))))
  · exact Or.inr (Or.inr (Or.inr (Or.inr (Or.inr (Or.inl rfl)))))
  · exact Or.inr (Or.inr (Or.inr (Or.inr (Or.inr (Or.inr rfl)))))

/-- The store log of a persist is always exactly the one handed transaction,
whether or not the store accepts it. -/
theorem persist_createCalls (env : Env) (tx : Transaction) :
    (persistTransaction env tx).createCalls = [tx] := by
  unfold persistTransaction
  cases env.createTransaction tx <;> rfl

-- concrete fixtures used by the witness and counterexample theorems

/-- A concrete existing patient (mirrors the repository test fixture). -/
def testPatient : Patient :=
  ⟨1, "John Doe", "john.doe@example.com", "123-456-7890", "123 Main St",
    "Anytown", "State", "12345"⟩

/-- A store that accepts every transaction and returns the stored copy. -/
def storeOk : Transaction → Except GoError Transaction := fun t => .ok t

/-- The wall clock of the concrete runs: midnight UTC, 15 March 2025. -/
def nowTest : Int := dateToNs ⟨15, 3, 2025⟩

/-- Environment with an existing patient, an accepting store and coin 1. -/
def envOk : Env :=
  { getPatient := fun _ => .ok testPatient
    createTransaction := storeOk
    newUUID := 42
    nowNs := nowTest
    randInt2 := .ok 1 }

/-- Same as `envOk` but the coin comes up 0. -/
def envRand0 : Env := { envOk with randInt2 := .ok 0 }

/-- Same as `envOk` but the patient lookup fails. -/
def envNoPatient : Env := { envOk with getPatient := fun _ => .error "patient not found" }

/-- Same as `envOk` but the store rejects every write. -/
def envStoreFail : Env := { envOk with createTransaction := fun _ => .error "database error" }

/-- Adult patient (35 years old at `nowTest`), record type NEW. -/
def reqAdultNew : PayTransactionRequest := ⟨9, "15-03-1990", "NEW"⟩

/-- Under-age patient (5 years old at `nowTest`), record type NEW. -/
def reqYoungNew : PayTransactionRequest := ⟨9, "15-03-2020", "NEW"⟩

/-- Under-age patient, record type OLD. -/
def reqYoungOld : PayTransactionRequest := ⟨9, "15-03-2020", "OLD"⟩

/-- Adult patient, record type OLD. -/
def reqAdultOld : PayTransactionRequest := ⟨9, "15-03-1990", "OLD"⟩

/-- ISO-ordered date-of-birth string, rejected by the DD-MM-YYYY layout. -/
def reqBadDob : PayTransactionRequest := ⟨9, "1990-03-15", "NEW"⟩

-- claim-level theorems

/-- C1: for every request whose patient resolves and whose date of birth
parses to an age below 18 (under the line-64 formula), `PayTransaction`
builds a Transaction with status `failed` and payload exactly
`{"error": "Patient must be more than 18 years old"}`, hands it to the store
exactly once, and returns the stored record with a nil error. -/
theorem C1_underage_failure_recorded (env : Env) (data : PayTransactionRequest)
    (p : Patient) (dob : Date) (rs : Transaction)
    (hp : env.getPatient (uuidString data.patientID) = .ok p)
    (hd : parseDDMMYYYY data.dateOfBirth = some dob)
    (hage : patientAge (env.nowNs - dateToNs dob) < 18)
    (hcr : env.createTransaction
        (buildTransaction env data TransactionStatusFailed underAgeJSON) = .ok rs) :
    PayTransaction env data =
      ⟨some rs, none, [buildTransaction env data TransactionStatusFailed underAgeJSON]⟩ ∧
    (buildTransaction env data TransactionStatusFailed underAgeJSON).status = "failed" ∧
    (buildTransaction env data TransactionStatusFailed underAgeJSON).apiResponse =
      "\x7b\"error\": \"Patient must be more than 18 years old\"\x7d" :=
  ⟨payTx_underage env data p dob rs hp hd hage hcr, rfl, rfl⟩

/-- C1 witness: a 5-year-old patient at the concrete clock `nowTest`. -/
theorem C1_witness :
    PayTransaction envOk reqYoungNew =
      ⟨some (buildTransaction envOk reqYoungNew TransactionStatusFailed underAgeJSON), none,
        [buildTransaction envOk reqYoungNew TransactionStatusFailed underAgeJSON]⟩ ∧
    (buildTransaction envOk reqYoungNew TransactionStatusFailed underAgeJSON).status = "failed" ∧
    (buildTransaction envOk reqYoungNew TransactionStatusFailed underAgeJSON).apiResponse =
      "\x7b\"error\": \"Patient must be more than 18 years old\"\x7d" :=
  C1_underage_failure_recorded envOk reqYoungNew testPatient ⟨15, 3, 2020⟩ _
    rfl (by decide) (by rw [patientAge_lt18_iff]; decide) rfl

/-- C3: when the patient lookup fails, `PayTransaction` surfaces the lookup
error and the store is never invoked. -/
theorem C3_patient_not_found (env : Env) (data : PayTransactionRequest) (e : GoError)
    (h : env.getPatient (uuidString data.patientID) = .error e) :
    PayTransaction env data = ⟨none, some e, []⟩ :=
  payTx_patient_error env data e h

/-- C3 witness: the repository lookup error "patient not found". -/
theorem C3_witness :
    PayTransaction envNoPatient reqAdultNew = ⟨none, some "patient not found", []⟩ :=
  C3_patient_not_found envNoPatient reqAdultNew "patient not found" rfl

/-- C4: when the patient resolves but the date-of-birth string does not parse
under the DD-MM-YYYY layout, `PayTransaction` returns the error
"date of birth format must be DD-MM-YYYY" and the store is never invoked. -/
theorem C4_bad_dob_not_persisted (env : Env) (data : PayTransactionRequest) (p : Patient)
    (hp : env.getPatient (uuidString data.patientID) = .ok p)
    (hd : parseDDMMYYYY data.dateOfBirth = none) :
    PayTransaction env data =
      ⟨none, some "date of birth format must be DD-MM-YYYY", []⟩ :=
  payTx_parse_error env data p hp hd

/-- C4 witness: the ISO-ordered string "1990-03-15" is rejected. -/
theorem C4_witness :
    PayTransaction envOk reqBadDob =
      ⟨none, some "date of birth format must be DD-MM-YYYY", []⟩ :=
  C4_bad_dob_not_persisted envOk reqBadDob testPatient rfl (by decide)

/-- C2 counterexample: a request with record type "OLD" and an under-age
date of birth. The age gate fires first (line 65 precedes line 76), so the
persisted payload is the under-age message and does not contain
"Record type must be NEW" — refuting "regardless of age". -/
theorem C2_counterexample :
    PayTransaction envOk reqYoungOld =
      ⟨some (buildTransaction envOk reqYoungOld TransactionStatusFailed underAgeJSON), none,
        [buildTransaction envOk reqYoungOld TransactionStatusFailed underAgeJSON]⟩ ∧
    strHasSub
      (buildTransaction envOk reqYoungOld TransactionStatusFailed underAgeJSON).apiResponse
      "Record type must be NEW" = false :=
  ⟨payTx_underage envOk reqYoungOld testPatient ⟨15, 3, 2020⟩ _
      rfl (by decide) (by rw [patientAge_lt18_iff]; decide) rfl,
    by decide⟩

/-- C2 (amended): for every request whose patient resolves, whose date of
birth parses with age at least 18, and whose record type is not the exact
literal "NEW", `PayTransaction` persists and returns a Transaction with
status `failed` and payload containing "Record type must be NEW". -/
theorem C2_record_type_gate (env : Env) (data : PayTransactionRequest)
    (p : Patient) (dob : Date) (rs : Transaction)
    (hp : env.getPatient (uuidString data.patientID) = .ok p)
    (hd : parseDDMMYYYY data.dateOfBirth = some dob)
    (hage : ¬ patientAge (env.nowNs - dateToNs dob) < 18)
    (hrt : data.recordType ≠ "NEW")
    (hcr : env.createTransaction
        (buildTransaction env data TransactionStatusFailed recordTypeJSON) = .ok rs) :
    PayTransaction env data =
      ⟨some rs, none, [buildTransaction env data TransactionStatusFailed recordTypeJSON]⟩ ∧
    (buildTransaction env data TransactionStatusFailed recordTypeJSON).status = "failed" ∧
    strHasSub (buildTransaction env data TransactionStatusFailed recordTypeJSON).apiResponse
      "Record type must be NEW" = true :=
  ⟨payTx_recordType env data p dob rs hp hd hage hrt hcr, rfl,
    by show strHasSub recordTypeJSON "Record type must be NEW" = true; decide⟩

/-- C2 witness: an adult patient with record type "OLD". -/
theorem C2_witness :
    PayTransaction envOk reqAdultOld =
      ⟨some (buildTransaction envOk reqAdultOld TransactionStatusFailed recordTypeJSON), none,
        [buildTransaction envOk reqAdultOld TransactionStatusFailed recordTypeJSON]⟩ ∧
    (buildTransaction envOk reqAdultOld TransactionStatusFailed recordTypeJSON).status =
      "failed" ∧
    strHasSub (buildTransaction envOk reqAdultOld TransactionStatusFailed recordTypeJSON).apiResponse
      "Record type must be NEW" = true :=
  C2_record_type_gate envOk reqAdultOld testPatient ⟨15, 3, 1990⟩ _
    rfl (by decide) (by rw [patientAge_lt18_iff]; decide) (by decide) rfl

/-- C5: when the patient resolves, age is at least 18 and the record type is
"NEW", the binary outcome `b` of `rand.Int(rand.Reader, big.NewInt(2))`
decides the persisted record: outcome 0 gives status `failed` with payload
`{"error":"Transaction failed"}`, outcome 1 gives status `success` with
payload `{"message":"Transaction success"}`; either way the stored record is
returned with a nil error after exactly one store call. -/
theorem C5_coin_outcomes (env : Env) (data : PayTransactionRequest)
    (p : Patient) (dob : Date) (rs : Transaction) (b : Nat) (hb2 : b < 2)
    (hp : env.getPatient (uuidString data.patientID) = .ok p)
    (hd : parseDDMMYYYY data.dateOfBirth = some dob)
    (hage : ¬ patientAge (env.nowNs - dateToNs dob) < 18)
    (hrt : data.recordType = "NEW")
    (hb : env.randInt2 = .ok b)
    (hcr : env.createTransaction (coinTransaction env data b) = .ok rs) :
    PayTransaction env data = ⟨some rs, none, [coinTransaction env data b]⟩ ∧
    (b = 0 → coinTransaction env data b =
      buildTransaction env data TransactionStatusFailed txFailedJSON) ∧
    (b = 1 → coinTransaction env data b =
      buildTransaction env data TransactionStatusSuccess txSuccessJSON) ∧
    strHasSub txFailedJSON "Transaction failed" = true ∧
    strHasSub txSuccessJSON "Transaction success" = true := by
  refine ⟨payTx_coin env data p dob rs b hp hd hage hrt hb hcr, ?_, ?_, by decide, by decide⟩
  · intro h0; simp [coinTransaction, h0]
  · intro h1; simp [coinTransaction, h1]

/-- C5 witness: the adult/NEW request with coin outcome 0. -/
theorem C5_witness :
    (PayTransaction envRand0 reqAdultNew =
      ⟨some (coinTransaction envRand0 reqAdultNew 0), none,
        [coinTransaction envRand0 reqAdultNew 0]⟩ ∧
    (0 = 0 → coinTransaction envRand0 reqAdultNew 0 =
      buildTransaction envRand0 reqAdultNew TransactionStatusFailed txFailedJSON) ∧
    (0 = 1 → coinTransaction envRand0 reqAdultNew 0 =
      buildTransaction envRand0 reqAdultNew TransactionStatusSuccess txSuccessJSON) ∧
    strHasSub txFailedJSON "Transaction failed" = true ∧
    strHasSub txSuccessJSON "Transaction success" = true) :=
  C5_coin_outcomes envRand0 reqAdultNew testPatient ⟨15, 3, 1990⟩ _ 0 (by decide)
    rfl (by decide) (by rw [patientAge_lt18_iff]; decide) rfl rfl rfl

/-- Under-age branch reaches the store regardless of the store's answer. -/
theorem payTx_underage_persist (env : Env) (data : PayTransactionRequest) (p : Patient)
    (dob : Date)
    (hp : env.getPatient (uuidString data.patientID) = .ok p)
    (hd : parseDDMMYYYY data.dateOfBirth = some dob)
    (hage : patientAge (env.nowNs - dateToNs dob) < 18) :
    PayTransaction env data =
      persistTransaction env (buildTransaction env data TransactionStatusFailed underAgeJSON) := by
  simp only [PayTransaction, hp, hd, hage, if_true]

/-- A rejected persist returns no record and the store's own error. -/
theorem persist_store_error (env : Env) (tx t : Transaction) (e : GoError)
    (hcall : t ∈ (persistTransaction env tx).createCalls)
    (herr : env.createTransaction t = .error e) :
    (persistTransaction env tx).transaction = none ∧
    (persistTransaction env tx).error = some e := by
  have ht : t = tx := by simpa [persist_createCalls] using hcall
  subst ht
  unfold persistTransaction
  rw [herr]
  exact ⟨rfl, rfl⟩

/-- An error-returning persist means the store itself rejected the write. -/
theorem persist_error_inv (env : Env) (tx : Transaction) (e : GoError)
    (h : (persistTransaction env tx).error = some e) :
    env.createTransaction tx = .error e := by
  unfold persistTransaction at h
  rcases hc : env.createTransaction tx with e2 | rs <;> rw [hc] at h <;> simp at h
  rw [h]

/-- C6: on every branch that hands a transaction to the store, a store error
is propagated: the operation returns a nil record together with that error,
never the would-have-been transaction. -/
theorem C6_store_error_propagates (env : Env) (data : PayTransactionRequest)
    (t : Transaction) (e : GoError)
    (hcall : t ∈ (PayTransaction env data).createCalls)
    (herr : env.createTransaction t = .error e) :
    (PayTransaction env data).transaction = none ∧
    (PayTransaction env data).error = some e := by
  rcases payTx_branches env data with ⟨e', he, hres⟩ | ⟨hd, hres⟩ | ⟨dob, hd, hage, hres⟩ |
    ⟨hrt, hres⟩ | ⟨e', he, hres⟩ | hres | hres <;>
    rw [hres] at hcall ⊢ <;>
    first
      | exact absurd hcall (List.not_mem_nil t)
      | exact persist_store_error env _ t e hcall herr

/-- C6 witness: the store rejects the under-age failure record. -/
theorem C6_witness :
    (PayTransaction envStoreFail reqYoungNew).transaction = none ∧
    (PayTransaction envStoreFail reqYoungNew).error = some "database error" := by
  refine C6_store_error_propagates envStoreFail reqYoungNew
    (buildTransaction envStoreFail reqYoungNew TransactionStatusFailed underAgeJSON)
    "database error" ?_ rfl
  rw [payTx_underage_persist envStoreFail reqYoungNew testPatient ⟨15, 3, 2020⟩
      rfl (by decide) (by rw [patientAge_lt18_iff]; decide),
    persist_createCalls]
  simp

/-- C7: a birth date lying exactly 18 calendar years before the current civil
date passes the strict age gate of line 65 — under the source's formula of
elapsed hours divided by 24 and then by 365 — and no under-age failure
record is ever handed to the store on such a run. `tod` is the time of day
already elapsed on the anniversary. -/
theorem C7_exact_18th_birthday_passes (env : Env) (data : PayTransactionRequest)
    (p : Patient) (d m y : Nat) (hy : 1 ≤ y) (tod : Int) (htod : 0 ≤ tod)
    (hp : env.getPatient (uuidString data.patientID) = .ok p)
    (hd : parseDDMMYYYY data.dateOfBirth = some ⟨d, m, y⟩)
    (hnow : env.nowNs = daysFromCivil (y + 18) m d * nsPerDay + tod) :
    (¬ patientAge (env.nowNs - dateToNs ⟨d, m, y⟩) < 18) ∧
    ∀ t ∈ (PayTransaction env data).createCalls, t.apiResponse ≠ underAgeJSON := by
  have hage : ¬ patientAge (env.nowNs - dateToNs ⟨d, m, y⟩) < 18 := by
    rw [patientAge_lt18_iff]
    have hdiff := daysFromCivil_18y_ge y m d hy
    have hmul : (daysFromCivil y m d + 6570) * nsPerDay ≤ daysFromCivil (y + 18) m d * nsPerDay :=
      mul_le_mul_of_nonneg_right hdiff (by norm_num [nsPerDay])
    rw [hnow]
    simp only [dateToNs, nsPerDay] at hmul ⊢
    push_neg
    linarith
  refine ⟨hage, ?_⟩
  intro t ht
  rcases payTx_branches env data with ⟨e', he, hres⟩ | ⟨hd2, hres⟩ | ⟨dob, hd2, hage2, hres⟩ |
    ⟨hrt, hres⟩ | ⟨e', he, hres⟩ | hres | hres <;> rw [hres] at ht
  · simp at ht
  · simp at ht
  · rw [hd] at hd2
    injection hd2 with hdob
    subst hdob
    exact absurd hage2 hage
  · rw [persist_createCalls] at ht
    simp at ht
    subst ht
    exact (by decide : recordTypeJSON ≠ underAgeJSON)
  · simp at ht
  · rw [persist_createCalls] at ht
    simp at ht
    subst ht
    exact (by decide : txFailedJSON ≠ underAgeJSON)
  · rw [persist_createCalls] at ht
    simp at ht
    subst ht
    exact (by decide : txSuccessJSON ≠ underAgeJSON)

/-- Environment whose clock is the exact 18th birthday (one hour into the
day) of a patient born 15 March 2000. -/
def envC7 : Env := { envOk with nowNs := daysFromCivil 2018 3 15 * nsPerDay + 3600000000000 }

/-- Request of the patient born 15 March 2000. -/
def reqC7 : PayTransactionRequest := ⟨9, "15-03-2000", "NEW"⟩

/-- C7 witness: born 15-03-2000, evaluated one hour into 15 March 2018. -/
theorem C7_witness :
    (¬ patientAge (envC7.nowNs - dateToNs ⟨15, 3, 2000⟩) < 18) ∧
    ∀ t ∈ (PayTransaction envC7 reqC7).createCalls, t.apiResponse ≠ underAgeJSON :=
  C7_exact_18th_birthday_passes envC7 reqC7 testPatient 15 3 2000 (by decide)
    3600000000000 (by decide) rfl (by decide) (by decide)

/-- C8 counterexample: a run whose patient resolves but whose date of birth
fails to parse returns an error with an empty store log — a failure path
other than patient-not-found that produces no record at all. -/
theorem C8_counterexample :
    envOk.getPatient (uuidString reqBadDob.patientID) = .ok testPatient ∧
    PayTransaction envOk reqBadDob = ⟨none, some dobFormatError, []⟩ :=
  ⟨rfl, payTx_parse_error envOk reqBadDob testPatient rfl (by decide)⟩

/-- C8 (amended): every error-returning run either made no store call at all
— and then it is the patient-lookup failure, the date-of-birth parse failure
or the randomness failure — or it made exactly one store call that the store
itself rejected, so no run that fails leaves more than one attempted record.
-/
theorem C8_no_record_failure_paths (env : Env) (data : PayTransactionRequest) (e : GoError)
    (h : (PayTransaction env data).error = some e) :
    ((PayTransaction env data).createCalls = [] ∧
      (env.getPatient (uuidString data.patientID) = .error e ∨ e = dobFormatError ∨
        env.randInt2 = .error e)) ∨
    (∃ t, (PayTransaction env data).createCalls = [t] ∧
      env.createTransaction t = .error e) := by
  rcases payTx_branches env data with ⟨e', he, hres⟩ | ⟨hd, hres⟩ | ⟨dob, hd, hage, hres⟩ |
    ⟨hrt, hres⟩ | ⟨e', he, hres⟩ | hres | hres <;> rw [hres] at h ⊢
  · simp at h
    subst h
    exact Or.inl ⟨rfl, Or.inl he⟩
  · simp at h
    subst h
    exact Or.inl ⟨rfl, Or.inr (Or.inl rfl)⟩
  · exact Or.inr ⟨_, persist_createCalls env _, persist_error_inv env _ e h⟩
  · exact Or.inr ⟨_, persist_createCalls env _, persist_error_inv env _ e h⟩
  · simp at h
    subst h
    exact Or.inl ⟨rfl, Or.inr (Or.inr he)⟩
  · exact Or.inr ⟨_, persist_createCalls env _, persist_error_inv env _ e h⟩
  · exact Or.inr ⟨_, persist_createCalls env _, persist_error_inv env _ e h⟩

/-- C8 witness: the parse-failure run classified by the amended statement. -/
theorem C8_witness :
    ((PayTransaction envOk reqBadDob).createCalls = [] ∧
      (envOk.getPatient (uuidString reqBadDob.patientID) = .error dobFormatError ∨
        dobFormatError = dobFormatError ∨ envOk.randInt2 = .error dobFormatError)) ∨
    (∃ t, (PayTransaction envOk reqBadDob).createCalls = [t] ∧
      envOk.createTransaction t = .error dobFormatError) :=
  C8_no_record_failure_paths envOk reqBadDob dobFormatError
    (by rw [payTx_parse_error envOk reqBadDob testPatient rfl (by decide)])

/-- C9: every transaction handed to the store carries the UUID freshly drawn
for this request and the request's patient identifier, date-of-birth string
and record-type string verbatim. -/
theorem C9_request_fields_copied (env : Env) (data : PayTransactionRequest) :
    ∀ t ∈ (PayTransaction env data).createCalls,
      t.id = env.newUUID ∧ t.patientID = data.patientID ∧
      t.dateOfBirth = data.dateOfBirth ∧ t.recordType = data.recordType := by
  intro t ht
  rcases payTx_branches env data with ⟨e', he, hres⟩ | ⟨hd, hres⟩ | ⟨dob, hd, hage, hres⟩ |
    ⟨hrt, hres⟩ | ⟨e', he, hres⟩ | hres | hres <;> rw [hres] at ht
  · simp at ht
  · simp at ht
  · rw [persist_createCalls] at ht
    simp at ht
    subst ht
    exact ⟨rfl, rfl, rfl, rfl⟩
  · rw [persist_createCalls] at ht
    simp at ht
    subst ht
    exact ⟨rfl, rfl, rfl, rfl⟩
  · simp at ht
  · rw [persist_createCalls] at ht
    simp at ht
    subst ht
    exact ⟨rfl, rfl, rfl, rfl⟩
  · rw [persist_createCalls] at ht
    simp at ht
    subst ht
    exact ⟨rfl, rfl, rfl, rfl⟩

/-- C9 witness: the under-age failure record of the concrete young patient. -/
theorem C9_witness :
    (buildTransaction envOk reqYoungNew TransactionStatusFailed underAgeJSON).id =
      envOk.newUUID ∧
    (buildTransaction envOk reqYoungNew TransactionStatusFailed underAgeJSON).patientID =
      reqYoungNew.patientID ∧
    (buildTransaction envOk reqYoungNew TransactionStatusFailed underAgeJSON).dateOfBirth =
      reqYoungNew.dateOfBirth ∧
    (buildTransaction envOk reqYoungNew TransactionStatusFailed underAgeJSON).recordType =
      reqYoungNew.recordType :=
  C9_request_fields_copied envOk reqYoungNew _ (by
    rw [payTx_underage_persist envOk reqYoungNew testPatient ⟨15, 3, 2020⟩
        rfl (by decide) (by rw [patientAge_lt18_iff]; decide),
      persist_createCalls]
    simp)

/-- C10: `PayTransaction` returns a record exactly when it returns a nil
error — no path returns both, and none returns neither. -/
theorem C10_record_iff_no_error (env : Env) (data : PayTransactionRequest) :
    (PayTransaction env data).transaction.isSome ↔
    (PayTransaction env data).error = none := by
  rcases payTx_branches env data with ⟨e', he, hres⟩ | ⟨hd, hres⟩ | ⟨dob, hd, hage, hres⟩ |
    ⟨hrt, hres⟩ | ⟨e', he, hres⟩ | hres | hres <;> rw [hres]
  · simp
  · simp
  · unfold persistTransaction
    split <;> simp
  · unfold persistTransaction
    split <;> simp
  · simp
  · unfold persistTransaction
    split <;> simp
  · unfold persistTransaction
    split <;> simp
